import Mathlib

/-!
Verification of the go-user-management authentication core against its
specification.  The Go source is shallowly embedded: pure functions become
Lean functions, the credential cache becomes explicit state passing, and the
two standard cryptographic primitives the code composes (AES-256-GCM from
crypto/cipher and SHA-256 from crypto/sha256) are modelled by their ideal
functionality, since the repository does not implement them itself.
-/

namespace UserMgmt

/-! ## State codec (EncryptedStateRepository, service_test.go)

`statePayload` mirrors the Go struct serialized into the encrypted state
token.  Go's `json.Marshal`/`json.Unmarshal` round-trip of this struct is
modelled by carrying the record itself as the AEAD plaintext (canonical
serialization of valid-UTF-8 strings is injective and lossless). -/

/-- The Go `statePayload` struct: `Timestamp int64`, `RedirectURL string`,
`Nonce string`. -/
structure statePayload where
  timestamp : Int
  redirectURL : String
  nonce : String
deriving Repr, DecidableEq

/-- Ideal model of an AES-256-GCM blob as produced by
`EncryptedStateRepository.encrypt`: `sealed key iv p` is the authenticated
encryption of payload `p` under `key` with IV `iv`; `mangled b i` is the
result of flipping bit `i` of blob `b`'s ciphertext (a blob that was not
produced by a seal under any key).  This is the standard ideal-AEAD
functionality: authentication succeeds exactly on blobs sealed under the
same key. -/
inductive GCMBlob where
  | sealed (key : Nat) (iv : Nat) (payload : statePayload)
  | mangled (orig : GCMBlob) (bitIndex : Nat)
deriving Repr, DecidableEq

/-- Ideal model of `gcm.Open` inside `EncryptedStateRepository.decrypt`:
decryption-with-authentication succeeds only on an unmodified blob sealed
under the very same key (AES-GCM integrity), and then returns the sealed
payload (AES-GCM correctness). -/
def gcmOpen (key : Nat) (blob : GCMBlob) : Option statePayload :=
  match blob with
  | .sealed k _ p => if k = key then some p else none
  | .mangled _ _ => none

/-- Go `EncryptedStateRepository.encrypt`: seal the (serialized) payload under
the repository key with a fresh random IV.  The IV is a parameter here; the
Go code draws it from crypto/rand. -/
def encrypt (key iv : Nat) (p : statePayload) : GCMBlob :=
  GCMBlob.sealed key iv p

/-- Flipping one bit of an issued token's ciphertext, as in the
tamper-evidence property: the result is a blob that no longer authenticates
under any key (ideal-AEAD integrity). -/
def flipBit (blob : GCMBlob) (i : Nat) : GCMBlob :=
  GCMBlob.mangled blob i

/-- Go `GenerateEncryptedState(nonce, redirectURL)`: build
`statePayload{Timestamp: time.Now().Unix(), RedirectURL, Nonce}`, marshal,
and encrypt.  `now` is the issuing clock reading, `iv` the random IV. -/
def GenerateEncryptedState (key iv : Nat) (now : Int)
    (nonce redirectURL : String) : GCMBlob :=
  encrypt key iv { timestamp := now, redirectURL := redirectURL, nonce := nonce }

/-- Go `maxAge := int64(5 * time.Minute / time.Second)` in
`ValidateAndRemoveState`. -/
def maxStateAge : Int := 300

/-- Go `EncryptedStateRepository.ValidateAndRemoveState(state)`: decrypt (any
decode/authentication failure gives `("", false)`), unmarshal, reject when
`now - payload.Timestamp > maxAge` or `payload.Timestamp > now + 60`,
otherwise return `(payload.RedirectURL, true)`. -/
def ValidateAndRemoveState (key : Nat) (now : Int) (state : GCMBlob) :
    String × Bool :=
  match gcmOpen key state with
  | none => ("", false)
  | some payload =>
    if now - payload.timestamp > maxStateAge then ("", false)
    else if payload.timestamp > now + 60 then ("", false)
    else (payload.redirectURL, true)

/-! ## Data model shared by the broker and the verifier (types.go) -/

/-- The fields of the Go `OIDCClaims` struct consumed by the embedded
functions.  `preferredRole` is the `cognito:preferred_role` claim and
`roles` the `cognito:roles` list claim read by sts_credentials.go;
`userRole` is the `custom:userRole` claim. -/
structure OIDCClaims where
  sub : String := ""
  email : String := ""
  givenName : String := ""
  familyName : String := ""
  picture : String := ""
  username : String := ""
  apiKey : String := ""
  userRole : String := ""
  preferredRole : String := ""
  roles : List String := []
deriving Repr, DecidableEq

/-- The fields of the Go `Claims` struct (normalized principal) consumed by
the embedded functions. -/
structure Claims where
  sub : String := ""
  email : String := ""
  givenName : String := ""
  familyName : String := ""
  picture : String := ""
  username : String := ""
  apiKey : String := ""
  role : String := ""
  userRole : String := ""
  tenantID : String := ""
  serviceProviderID : String := ""
  provider : String := ""
deriving Repr, DecidableEq

/-- The fields of the Go `OAuthConfig` struct consumed by the embedded
functions.  `calculateDefaultRole` is the injected
`CalculateDefaultRole func(*OIDCClaims) string`, `none` modelling a nil
function pointer. -/
structure OAuthConfig where
  region : String := ""
  frontEndURL : String := ""
  stsRoleARN : String := ""
  stsSessionName : String := ""
  stsDurationSeconds : Int := 0
  calculateDefaultRole : Option (OIDCClaims → String) := none

/-- The Go `STSCredentials` struct; `expiration` is the expiry instant as
Unix seconds. -/
structure STSCredentials where
  accessKeyID : String
  secretAccessKey : String
  sessionToken : String
  expiration : Int
deriving Repr, DecidableEq

/-! ## Credential broker (sts_credentials.go, sts_cache.go) -/

/-- Go `selectRoleARN(claims, oauthConfig)`: priority (1)
`claims.PreferredRole` when claims is non-nil and the field non-empty, (2)
`claims.Roles[0]` when claims is non-nil and the list non-empty, (3)
`oauthConfig.STSRoleARN`.  `none` models a nil `*OIDCClaims`. -/
def selectRoleARN (claims : Option OIDCClaims) (oauthConfig : OAuthConfig) :
    String :=
  match claims with
  | some c =>
    if c.preferredRole ≠ "" then c.preferredRole
    else
      match c.roles with
      | r :: _ => r
      | [] => oauthConfig.stsRoleARN
  | none => oauthConfig.stsRoleARN

/-- Go `isRoleAllowed(roleARN, allowedRoles)`: linear scan for an exact
match. -/
def isRoleAllowed (roleARN : String) (allowedRoles : List String) : Bool :=
  allowedRoles.any (fun allowed => allowed = roleARN)

/-- Go `sanitizeSessionName`'s per-rune allow-list:
`a-z`, `A-Z`, `0-9`, `=`, `.`, `@`, `-`. -/
def isSessionNameChar (r : Char) : Bool :=
  decide (('a' ≤ r ∧ r ≤ 'z') ∨ ('A' ≤ r ∧ r ≤ 'Z') ∨ ('0' ≤ r ∧ r ≤ '9') ∨
    r = '=' ∨ r = '.' ∨ r = '@' ∨ r = '-')

/-- Go `sanitizeSessionName(s)`: keep only allow-listed runes. -/
def sanitizeSessionName (s : String) : String :=
  String.mk (s.data.filter isSessionNameChar)

/-- Go `buildSessionName(claims, oauthConfig)`: configured prefix (default
`"user-session"`), `-` plus the sanitized email when present and non-empty,
truncated to 64 characters (the Go code truncates bytes; for the ASCII
session alphabet these coincide). -/
def buildSessionName (claims : Option OIDCClaims) (oauthConfig : OAuthConfig) :
    String :=
  let base :=
    if oauthConfig.stsSessionName = "" then "user-session"
    else oauthConfig.stsSessionName
  let named :=
    match claims with
    | some c =>
      if c.email ≠ "" then
        let sanitized := sanitizeSessionName c.email
        if sanitized ≠ "" then base ++ "-" ++ sanitized else base
      else base
    | none => base
  if named.length > 64 then named.take 64 else named

/-- A raw identity token as consumed by `GetSTSCredentials`: `raw` is the
JWT string itself (hashed for the cache key and forwarded to STS), and
`payload` is the result of decoding its claims segment, `none` modelling
every failure branch of `parseTokenClaims` (wrong segment count, bad
base64, bad JSON). -/
structure IDToken where
  raw : String
  payload : Option OIDCClaims
deriving Repr, DecidableEq

/-- Go `parseTokenClaims(token)`: extract the claims of the JWT without
signature validation. -/
def parseTokenClaims (token : IDToken) : Option OIDCClaims :=
  token.payload

/-- Ideal model of `hashToken` (the hex of the first 16 bytes of the
SHA-256 of the token): a collision-resistant fingerprint, modelled as an
injective tagging of the raw token string. -/
structure TokenHash where
  digest : String
deriving Repr, DecidableEq

/-- Go `hashToken(token)`. -/
def hashToken (token : String) : TokenHash := ⟨token⟩

/-- One entry of the Go `stsCache` map: `cachedCredentials{creds,
expiresAt}` where `expiresAt` is set to `creds.Expiration` on insert. -/
structure cachedCredentials where
  creds : STSCredentials
  expiresAt : Int
deriving Repr, DecidableEq

/-- The process-wide `stsCache` map, made explicit as an association list
(first match wins, as insertion prepends). -/
def STSCache := List (TokenHash × cachedCredentials)
deriving instance Repr, DecidableEq for STSCache

/-- Map lookup in the explicit cache. -/
def lookupCache (cache : STSCache) (h : TokenHash) : Option cachedCredentials :=
  match cache with
  | [] => none
  | (k, v) :: rest => if k = h then some v else lookupCache rest h

/-- Go `getCachedCredentials(tokenHash)` at clock reading `now`: miss when the
key is absent or when `now + cacheExpirationBuffer` (5 minutes) is after
the entry's expiry. -/
def getCachedCredentials (now : Int) (cache : STSCache) (tokenHash : TokenHash) :
    Option STSCredentials :=
  match lookupCache cache tokenHash with
  | none => none
  | some cached =>
    if now + 300 > cached.expiresAt then none else some cached.creds

/-- Go `setCachedCredentials(tokenHash, creds)`: overwrite the entry under
`tokenHash` (prepending realizes map overwrite for first-match lookup). -/
def setCachedCredentials (cache : STSCache) (tokenHash : TokenHash)
    (creds : STSCredentials) : STSCache :=
  (tokenHash, { creds := creds, expiresAt := creds.expiration }) :: cache

deriving instance DecidableEq for Except

/-- Result of one `GetSTSCredentials` invocation: the returned value or
error, the cache state afterwards, and how many STS federation calls the
invocation performed. -/
structure STSOutcome where
  result : Except String STSCredentials
  cache : STSCache
  federationCalls : Nat
deriving Repr, DecidableEq

/-- Go `GetSTSCredentials(ctx, idToken, oauthConfig)`.  The STS federation
endpoint is the oracle `sts roleARN sessionName webIdentityToken duration`,
`none` modelling both a failed `AssumeRoleWithWebIdentity` call and a
response with nil credentials.  `none` for `oauthConfig` models a nil
pointer.  The `config.LoadDefaultConfig` error branch is environmental
(process credentials misconfiguration) and is not modelled. -/
def GetSTSCredentials
    (sts : String → String → String → Int → Option STSCredentials)
    (now : Int) (idToken : IDToken) (oauthConfig : Option OAuthConfig)
    (cache : STSCache) : STSOutcome :=
  match oauthConfig with
  | none => ⟨.error "oauth config is not set", cache, 0⟩
  | some cfg =>
    if idToken.raw = "" then ⟨.error "ID token is required", cache, 0⟩
    else
      let tokenHash := hashToken idToken.raw
      match getCachedCredentials now cache tokenHash with
      | some cached => ⟨.ok cached, cache, 0⟩
      | none =>
        match parseTokenClaims idToken with
        | none => ⟨.error "failed to parse token claims", cache, 0⟩
        | some claims =>
          let roleARN := selectRoleARN (some claims) cfg
          if roleARN = "" then
            ⟨.error "no role ARN available: neither cognito:preferred_role in token nor STSRoleARN configured", cache, 0⟩
          else if !claims.roles.isEmpty && !isRoleAllowed roleARN claims.roles then
            ⟨.error ("role " ++ roleARN ++ " is not in the allowed roles from token"), cache, 0⟩
          else
            let sessionName := buildSessionName (some claims) cfg
            let duration : Int :=
              if cfg.stsDurationSeconds = 0 then 3600 else cfg.stsDurationSeconds
            match sts roleARN sessionName idToken.raw duration with
            | none => ⟨.error "failed to assume role with web identity", cache, 0⟩
            | some creds =>
              ⟨.ok creds, setCachedCredentials cache tokenHash creds, 1⟩

/-- The hypotheses of a cache-miss invocation of `GetSTSCredentials` that
reaches the federation endpoint and succeeds: non-empty token, cache miss,
parseable claims, a resolvable role that passes the allow-list check, and
the federation endpoint answering `creds`. -/
def MissSuccess
    (sts : String → String → String → Int → Option STSCredentials)
    (now : Int) (t : IDToken) (cfg : OAuthConfig) (cache : STSCache)
    (claims : OIDCClaims) (creds : STSCredentials) : Prop :=
  t.raw ≠ "" ∧
  getCachedCredentials now cache (hashToken t.raw) = none ∧
  parseTokenClaims t = some claims ∧
  selectRoleARN (some claims) cfg ≠ "" ∧
  (!claims.roles.isEmpty &&
    !isRoleAllowed (selectRoleARN (some claims) cfg) claims.roles) = false ∧
  sts (selectRoleARN (some claims) cfg) (buildSessionName (some claims) cfg)
      t.raw
      (if cfg.stsDurationSeconds = 0 then 3600 else cfg.stsDurationSeconds) =
    some creds

/-! ## Token verifier normalization (oidc.go, cognito_token.go) -/

/-- The claims-normalization tail of `ValidateOIDCTokenFromOAuthConfig`
(oidc.go lines 80-105): after the go-oidc library has verified signature,
issuer, audience and expiry and unmarshalled the raw claims, compute
`defaultRole` as the injected `CalculateDefaultRole` applied to the raw
claims when configured, `"user"` otherwise, and build the standardized
`Claims` with `Role: defaultRole` and `Provider: "cognito"`. -/
def validateOIDCTokenNormalize (oidcClaims : OIDCClaims)
    (config : OAuthConfig) : Claims :=
  let defaultRole :=
    match config.calculateDefaultRole with
    | some f => f oidcClaims
    | none => "user"
  { sub := oidcClaims.sub
    email := oidcClaims.email
    givenName := oidcClaims.givenName
    familyName := oidcClaims.familyName
    picture := oidcClaims.picture
    username := oidcClaims.username
    apiKey := oidcClaims.apiKey
    role := defaultRole
    provider := "cognito" }

/-- A Cognito directory record (`types.UserType`): optional `Username`
pointer and the attribute list in provider order. -/
structure CognitoUserType where
  username : Option String
  attributes : List (String × String)
deriving Repr, DecidableEq

/-- One iteration of the attribute switch in `cognitoUserToClaims`:
unrecognized names fall through, later attributes overwrite earlier
ones. -/
def applyCognitoAttr (c : Claims) (attr : String × String) : Claims :=
  if attr.1 = "sub" then { c with sub := attr.2 }
  else if attr.1 = "email" then { c with email := attr.2 }
  else if attr.1 = "given_name" then { c with givenName := attr.2 }
  else if attr.1 = "family_name" then { c with familyName := attr.2 }
  else if attr.1 = "picture" then { c with picture := attr.2 }
  else if attr.1 = "custom:apiKey" ∨ attr.1 = "custom:api_key" then
    { c with apiKey := attr.2 }
  else if attr.1 = "custom:role" then { c with role := attr.2 }
  else if attr.1 = "custom:userRole" then { c with userRole := attr.2 }
  else if attr.1 = "custom:tenantId" then { c with tenantID := attr.2 }
  else if attr.1 = "custom:serviceProviderId" then
    { c with serviceProviderID := attr.2 }
  else c

/-- Go `cognitoUserToClaims(cognitoUser, oauthConfig)`: fold the attributes
into a fresh `Claims{Provider: "token"}`; username falls back to email and
a record with neither fails; a missing email attribute fails; an empty
`Role` is promoted from `UserRole`, then from the injected default-role
function over the normalized fields, then from the static `"user"`. -/
def cognitoUserToClaims (cognitoUser : CognitoUserType)
    (oauthConfig : OAuthConfig) : Except String Claims :=
  let c0 : Claims := { provider := "token" }
  let c := cognitoUser.attributes.foldl applyCognitoAttr c0
  match
    (match cognitoUser.username with
     | some u => Except.ok { c with username := u }
     | none =>
       if c.email ≠ "" then Except.ok { c with username := c.email }
       else Except.error "user has no username or email") with
  | .error e => .error e
  | .ok c1 =>
    if c1.email = "" then .error "user has no email attribute"
    else
      let c2 :=
        if c1.role = "" ∧ c1.userRole ≠ "" then { c1 with role := c1.userRole }
        else c1
      let c3 :=
        if c2.role = "" then
          let defaultRole :=
            match oauthConfig.calculateDefaultRole with
            | some f =>
              f { email := c2.email, givenName := c2.givenName,
                  familyName := c2.familyName, username := c2.username }
            | none => "user"
          { c2 with role := defaultRole }
        else c2
      .ok c3

/-! ## Flow orchestrator (oauth2.go, OAuth2Handlers in src/unnamed/part_015) -/

/-- Go `MaxOAuthRetryAttempts = 3`. -/
def MaxOAuthRetryAttempts : Int := 3

/-- Go `RetryQueryParam = "oauth_retry"`. -/
def RetryQueryParam : String := "oauth_retry"

/-- Decimal-digit accumulator for `goAtoi`; `none` on any non-digit. -/
def digitsToNat (ds : List Char) : Option Nat :=
  ds.foldl
    (fun acc c =>
      match acc with
      | none => none
      | some n =>
        if '0' ≤ c ∧ c ≤ '9' then some (n * 10 + (c.toNat - '0'.toNat))
        else none)
    (some 0)

/-- Go's `strconv.Atoi`: optional sign, at least one decimal digit, nothing
else, and the value must fit a 64-bit `int` (out-of-range input returns an
error, here `none`). -/
def goAtoi (s : String) : Option Int :=
  let signed : Int × List Char :=
    match s.data with
    | '+' :: rest => (1, rest)
    | '-' :: rest => (-1, rest)
    | cs => (1, cs)
  if signed.2.isEmpty then none
  else
    match digitsToNat signed.2 with
    | none => none
    | some n =>
      let v : Int := signed.1 * n
      if v < -(2 ^ 63) ∨ v ≥ 2 ^ 63 then none else some v

/-- Go `getRetryAttempts(r)`: the `oauth_retry` query value (Go's
`Query().Get` yields `""` when the parameter is absent); `""` or any
`strconv.Atoi` failure yields 0. -/
def getRetryAttempts (retryStr : String) : Int :=
  if retryStr = "" then 0
  else
    match goAtoi retryStr with
    | none => 0
    | some attempts => attempts

/-- Go `hasExceededRetryLimit(attempts)`. -/
def hasExceededRetryLimit (attempts : Int) : Bool :=
  attempts ≥ MaxOAuthRetryAttempts

/-- Go `OAuth2Service.HandleCallback(code, state)`: reject empty code or state
(`none` models the empty state string), validate the state token, then
exchange the code and verify the returned ID token.  The network
code-for-token exchange plus `ValidateOIDCTokenFromOAuthConfig` composite
is the oracle `exchangeVerify code`, returning the verified claims and the
raw ID token, or the error of whichever step failed.  The best-effort
`upsertUser` call does not affect the returned value. -/
def HandleCallback (key : Nat) (now : Int)
    (exchangeVerify : String → Except String (Claims × String))
    (code : String) (state : Option GCMBlob) :
    Except String (Claims × String × String) :=
  if code = "" then .error "missing authorization code"
  else
    match state with
    | none => .error "missing state parameter"
    | some blob =>
      match ValidateAndRemoveState key now blob with
      | (redirectURL, true) =>
        match exchangeVerify code with
        | .error e => .error e
        | .ok (claims, rawIDToken) => .ok (claims, rawIDToken, redirectURL)
      | (_, false) => .error "invalid or expired state parameter"

/-- An incoming callback HTTP request, reduced to the query parameters the
handler reads.  `stateParam = none` models an absent/empty `state`;
`redirectUrlParam` and `oauthRetryParam` are `Query().Get("redirect_url")`
and `Query().Get("oauth_retry")` (`""` when absent). -/
structure CallbackRequest where
  code : String
  stateParam : Option GCMBlob
  redirectUrlParam : String
  oauthRetryParam : String

/-- The externally observable response of `CallbackHandler`: a JSON error
with an HTTP status, a 302 redirect, or the success path (cookie set from
the raw ID token, then a 302 to the final destination). -/
inductive CallbackResponse where
  | jsonError (status : Nat) (message : String)
  | redirectTo (location : String)
  | successRedirect (rawIDToken : String) (location : String)
deriving Repr, DecidableEq

/-- Go `OAuth2Handlers.CallbackHandler(w, r)`: reject missing code/state; on
`HandleCallback` success set the JWT cookie and redirect to the state's
redirect URL (dashboard default); on failure consult the request's
`oauth_retry` count, answer a terminal JSON error once the limit is
reached, and otherwise regenerate an authorization URL (the
`GenerateAuthURL` oracle `genAuthURL`, applied to the request's
`redirect_url` query value or the dashboard default) and append
`&oauth_retry=<n+1>`.  The `GenerateAuthURL`-failure branch (crypto/rand
exhaustion) is environmental and not modelled. -/
def CallbackHandler (key : Nat) (now : Int)
    (exchangeVerify : String → Except String (Claims × String))
    (frontEndURL : String) (genAuthURL : String → String)
    (req : CallbackRequest) : CallbackResponse :=
  if req.code = "" then .jsonError 400 "Missing authorization code"
  else
    match req.stateParam with
    | none => .jsonError 400 "Missing state parameter"
    | some blob =>
      match HandleCallback key now exchangeVerify req.code (some blob) with
      | .ok (_, rawIDToken, redirectURL) =>
        .successRedirect rawIDToken
          (if redirectURL = "" then frontEndURL ++ "/dashboard" else redirectURL)
      | .error _ =>
        let retryAttempts := getRetryAttempts req.oauthRetryParam
        if hasExceededRetryLimit retryAttempts then
          .jsonError 400 "Authentication failed: too many retry attempts"
        else
          let originalRedirectURL :=
            if req.redirectUrlParam = "" then frontEndURL ++ "/dashboard"
            else req.redirectUrlParam
          .redirectTo (genAuthURL originalRedirectURL ++
            ("&" ++ RetryQueryParam ++ "=" ++ toString (retryAttempts + 1)))

/-- Modelled from the spec (§6, identity-provider collaborator): the OIDC
provider is a black box that, after the authorization request, redirects
the browser to the registered callback URI carrying exactly the `code` and
`state` query parameters; in particular the callback request carries no
`redirect_url` and no `oauth_retry` parameter of its own. -/
def providerCallbackRequest (code : String) (stateBlob : GCMBlob) :
    CallbackRequest :=
  { code := code, stateParam := some stateBlob, redirectUrlParam := "",
    oauthRetryParam := "" }

/-- The `oauth_retry` value carried by the (k+1)-th consecutive failing
callback, under the spec's transport model (§3 RetryState, §6): the first
callback of a login attempt carries no retry parameter, and each retry
authorization URL's parameter is carried through to the next callback. -/
def retryParamAfter : Nat → String
  | 0 => ""
  | k + 1 => toString (getRetryAttempts (retryParamAfter k) + 1)

/-! ## Theorems -/

/-- Issuing at `issued` and validating at `now` accepts exactly inside the
window `now - issued ≤ 300 ∧ issued ≤ now + 60`, returning the embedded
redirect target. -/
theorem validate_generate (key iv : Nat) (now issued : Int)
    (nonce target : String) :
    ValidateAndRemoveState key now
        (GenerateEncryptedState key iv issued nonce target) =
      if now - issued ≤ 300 ∧ issued ≤ now + 60 then (target, true)
      else ("", false) := by
  simp [ValidateAndRemoveState, GenerateEncryptedState, encrypt, gcmOpen,
    maxStateAge]
  split_ifs with h1 h2 h3 <;> first | rfl | omega

/-- Claim C1: for every nonce and redirect target, issuing an encrypted
state token and immediately validating it with the same key returns the
redirect target and `true`. -/
theorem state_roundtrip_c1 (key iv : Nat) (now : Int)
    (nonce redirectTarget : String) :
    ValidateAndRemoveState key now
        (GenerateEncryptedState key iv now nonce redirectTarget) =
      (redirectTarget, true) := by
  rw [validate_generate, if_pos]
  exact ⟨by omega, by omega⟩

/-- Claim C2: an issued token is accepted exactly when
`now - issuedAt ≤ 300` and `issuedAt ≤ now + 60`; in particular
`issuedAt = now - 299` and `now + 59` validate `true`, while
`now - 301` and `now + 61` validate `false`. -/
theorem state_expiry_boundary_c2 :
    (∀ (key iv : Nat) (now issued : Int) (nonce target : String),
      ValidateAndRemoveState key now
          (GenerateEncryptedState key iv issued nonce target) =
        (if now - issued ≤ 300 ∧ issued ≤ now + 60 then (target, true)
         else ("", false))) ∧
    (∀ (key iv : Nat) (now : Int) (nonce target : String),
      ValidateAndRemoveState key now
          (GenerateEncryptedState key iv (now - 299) nonce target) =
        (target, true)) ∧
    (∀ (key iv : Nat) (now : Int) (nonce target : String),
      ValidateAndRemoveState key now
          (GenerateEncryptedState key iv (now - 301) nonce target) =
        ("", false)) ∧
    (∀ (key iv : Nat) (now : Int) (nonce target : String),
      ValidateAndRemoveState key now
          (GenerateEncryptedState key iv (now + 59) nonce target) =
        (target, true)) ∧
    (∀ (key iv : Nat) (now : Int) (nonce target : String),
      ValidateAndRemoveState key now
          (GenerateEncryptedState key iv (now + 61) nonce target) =
        ("", false)) := by
  refine ⟨validate_generate, ?_, ?_, ?_, ?_⟩ <;>
    intro key iv now nonce target <;> rw [validate_generate]
  · rw [if_pos]; exact ⟨by omega, by omega⟩
  · rw [if_neg]; omega
  · rw [if_pos]; exact ⟨by omega, by omega⟩
  · rw [if_neg]; omega

/-- Claim C3: flipping any single bit of an issued token's ciphertext makes
validation (at any later clock reading) return `("", false)` with
certainty, by AEAD integrity. -/
theorem state_tamper_c3 (key iv : Nat) (now now2 : Int)
    (nonce target : String) (i : Nat) :
    ValidateAndRemoveState key now2
        (flipBit (GenerateEncryptedState key iv now nonce target) i) =
      ("", false) := rfl

/-- Claim C4: role selection prefers the token's preferred-role claim, then
the first entry of its allowed-roles list, then the configured fallback; an
empty result of all three fails with the no-resolvable-role error; and a
token with `preferredRole = "R1"` and `allowedRoles = ["R2","R1"]` selects
`R1` even with a configured fallback `R3`. -/
theorem sts_role_selection_c4 :
    (∀ (c : OIDCClaims) (cfg : OAuthConfig),
      c.preferredRole ≠ "" → selectRoleARN (some c) cfg = c.preferredRole) ∧
    (∀ (c : OIDCClaims) (cfg : OAuthConfig) (r : String) (rs : List String),
      c.preferredRole = "" → c.roles = r :: rs →
      selectRoleARN (some c) cfg = r) ∧
    (∀ (c : OIDCClaims) (cfg : OAuthConfig),
      c.preferredRole = "" → c.roles = [] →
      selectRoleARN (some c) cfg = cfg.stsRoleARN) ∧
    (∀ (sts : String → String → String → Int → Option STSCredentials)
       (now : Int) (t : IDToken) (cfg : OAuthConfig) (cache : STSCache)
       (claims : OIDCClaims),
      t.raw ≠ "" →
      getCachedCredentials now cache (hashToken t.raw) = none →
      parseTokenClaims t = some claims →
      selectRoleARN (some claims) cfg = "" →
      GetSTSCredentials sts now t (some cfg) cache =
        ⟨.error "no role ARN available: neither cognito:preferred_role in token nor STSRoleARN configured",
          cache, 0⟩) ∧
    (∀ (cfg : OAuthConfig),
      selectRoleARN (some { preferredRole := "R1", roles := ["R2", "R1"] })
        { cfg with stsRoleARN := "R3" } = "R1") := by
  refine ⟨?_, ?_, ?_, ?_, ?_⟩
  · intro c cfg h
    simp [selectRoleARN, h]
  · intro c cfg r rs h hr
    simp [selectRoleARN, h, hr]
  · intro c cfg h hr
    simp [selectRoleARN, h, hr]
  · intro sts now t cfg cache claims hraw hcache hparse hrole
    simp [GetSTSCredentials, hraw, hcache, hparse, hrole]
  · intro cfg
    rfl

/-- Witness for C4 at concrete inputs. -/
theorem sts_role_selection_c4_witness :
    selectRoleARN (some { preferredRole := "R1" }) ({} : OAuthConfig) = "R1" ∧
    selectRoleARN (some { roles := ["A", "B"] }) ({} : OAuthConfig) = "A" ∧
    selectRoleARN (some {}) ({ stsRoleARN := "D" } : OAuthConfig) = "D" ∧
    GetSTSCredentials (fun _ _ _ _ => none) 0 ⟨"tok", some {}⟩
        (some ({} : OAuthConfig)) [] =
      ⟨.error "no role ARN available: neither cognito:preferred_role in token nor STSRoleARN configured",
        [], 0⟩ ∧
    selectRoleARN (some { preferredRole := "R1", roles := ["R2", "R1"] })
      { ({} : OAuthConfig) with stsRoleARN := "R3" } = "R1" :=
  ⟨sts_role_selection_c4.1 { preferredRole := "R1" } {} (by decide),
   sts_role_selection_c4.2.1 { roles := ["A", "B"] } {} "A" ["B"] rfl rfl,
   sts_role_selection_c4.2.2.1 {} { stsRoleARN := "D" } rfl rfl,
   sts_role_selection_c4.2.2.2.1 (fun _ _ _ _ => none) 0 ⟨"tok", some {}⟩ {}
     [] {} (by decide) rfl rfl rfl,
   sts_role_selection_c4.2.2.2.2 {}⟩

/-- Claim C5: when the token carries a non-empty allowed-roles list and the
selected role is not a member, `GetSTSCredentials` fails with the
role-not-permitted error and performs no federation call; in particular
`preferredRole = "R1"` with `allowedRoles = ["R2"]` yields that error. -/
theorem sts_role_not_permitted_c5 :
    (∀ (sts : String → String → String → Int → Option STSCredentials)
       (now : Int) (t : IDToken) (cfg : OAuthConfig) (cache : STSCache)
       (claims : OIDCClaims),
      t.raw ≠ "" →
      getCachedCredentials now cache (hashToken t.raw) = none →
      parseTokenClaims t = some claims →
      selectRoleARN (some claims) cfg ≠ "" →
      claims.roles ≠ [] →
      isRoleAllowed (selectRoleARN (some claims) cfg) claims.roles = false →
      GetSTSCredentials sts now t (some cfg) cache =
        ⟨.error ("role " ++ selectRoleARN (some claims) cfg ++
          " is not in the allowed roles from token"), cache, 0⟩) ∧
    (∀ (sts : String → String → String → Int → Option STSCredentials)
       (now : Int) (t : IDToken) (cfg : OAuthConfig) (cache : STSCache),
      t.raw ≠ "" →
      getCachedCredentials now cache (hashToken t.raw) = none →
      parseTokenClaims t = some { preferredRole := "R1", roles := ["R2"] } →
      GetSTSCredentials sts now t (some cfg) cache =
        ⟨.error "role R1 is not in the allowed roles from token", cache, 0⟩) := by
  constructor
  · intro sts now t cfg cache claims hraw hcache hparse hrole hne hallow
    have hempty : claims.roles.isEmpty = false := by
      cases h : claims.roles with
      | nil => exact absurd h hne
      | cons a as => rfl
    simp [GetSTSCredentials, hraw, hcache, hparse, hrole, hempty, hallow]
  · intro sts now t cfg cache hraw hcache hparse
    simp [GetSTSCredentials, hraw, hcache, hparse, selectRoleARN, isRoleAllowed]

/-- Witness for C5 at concrete inputs. -/
theorem sts_role_not_permitted_c5_witness :
    GetSTSCredentials (fun _ _ _ _ => none) 0
        ⟨"tok", some { preferredRole := "R1", roles := ["R2"] }⟩
        (some ({} : OAuthConfig)) [] =
      ⟨.error "role R1 is not in the allowed roles from token", [], 0⟩ :=
  sts_role_not_permitted_c5.2 (fun _ _ _ _ => none) 0
    ⟨"tok", some { preferredRole := "R1", roles := ["R2"] }⟩ {} []
    (by decide) rfl rfl

/-- A successful cache-miss invocation returns the federation endpoint's
credentials, writes them to the cache, and performs exactly one federation
call. -/
theorem getSTS_of_missSuccess
    (sts : String → String → String → Int → Option STSCredentials)
    (now : Int) (t : IDToken) (cfg : OAuthConfig) (cache : STSCache)
    (claims : OIDCClaims) (creds : STSCredentials)
    (h : MissSuccess sts now t cfg cache claims creds) :
    GetSTSCredentials sts now t (some cfg) cache =
      ⟨.ok creds, setCachedCredentials cache (hashToken t.raw) creds, 1⟩ := by
  obtain ⟨hraw, hcache, hparse, hrole, hallow, hsts⟩ := h
  simp [GetSTSCredentials, hraw, hcache, hparse, hrole, hallow, hsts]

/-- Looking up the key just written finds the fresh entry. -/
theorem lookupCache_set_self (cache : STSCache) (h : TokenHash)
    (creds : STSCredentials) :
    lookupCache (setCachedCredentials cache h creds) h =
      some { creds := creds, expiresAt := creds.expiration } := by
  simp [setCachedCredentials, lookupCache]

/-- Writing under one key leaves lookups of a different key unchanged. -/
theorem lookupCache_set_ne (cache : STSCache) (h h2 : TokenHash)
    (creds : STSCredentials) (hne : h ≠ h2) :
    lookupCache (setCachedCredentials cache h creds) h2 =
      lookupCache cache h2 := by
  simp [setCachedCredentials, lookupCache, hne]

/-- A freshly written credential whose expiry is more than the safety
buffer away is returned by the cache read. -/
theorem getCached_set_self (now : Int) (cache : STSCache) (h : TokenHash)
    (creds : STSCredentials) (hfresh : creds.expiration - now > 300) :
    getCachedCredentials now (setCachedCredentials cache h creds) h =
      some creds := by
  simp [getCachedCredentials, lookupCache_set_self]
  omega

/-- Cache reads of a different key are unaffected by a write. -/
theorem getCached_set_ne (now : Int) (cache : STSCache) (h h2 : TokenHash)
    (creds : STSCredentials) (hne : h ≠ h2) :
    getCachedCredentials now (setCachedCredentials cache h creds) h2 =
      getCachedCredentials now cache h2 := by
  simp [getCachedCredentials, lookupCache_set_ne cache h h2 creds hne]

/-- Claim C6: a second `GetSTSCredentials` call with the same token, while
the cached credential's expiry is more than the 5-minute safety buffer
away, performs no further federation call and returns the identical
credentials; distinct raw tokens have distinct cache keys, and two
successful calls with distinct tokens each perform their own federation
call and leave two independent cache entries. -/
theorem sts_cache_c6 :
    (∀ (sts : String → String → String → Int → Option STSCredentials)
       (now1 now2 : Int) (t : IDToken) (cfg : OAuthConfig) (cache : STSCache)
       (claims : OIDCClaims) (creds : STSCredentials),
      MissSuccess sts now1 t cfg cache claims creds →
      creds.expiration - now2 > 300 →
      GetSTSCredentials sts now1 t (some cfg) cache =
        ⟨.ok creds, setCachedCredentials cache (hashToken t.raw) creds, 1⟩ ∧
      GetSTSCredentials sts now2 t (some cfg)
          (setCachedCredentials cache (hashToken t.raw) creds) =
        ⟨.ok creds, setCachedCredentials cache (hashToken t.raw) creds, 0⟩) ∧
    (∀ s1 s2 : String, s1 ≠ s2 → hashToken s1 ≠ hashToken s2) ∧
    (∀ (sts : String → String → String → Int → Option STSCredentials)
       (now1 now2 : Int) (t1 t2 : IDToken) (cfg : OAuthConfig)
       (cache : STSCache) (claims1 claims2 : OIDCClaims)
       (c1 c2 : STSCredentials),
      t1.raw ≠ t2.raw →
      MissSuccess sts now1 t1 cfg cache claims1 c1 →
      MissSuccess sts now2 t2 cfg cache claims2 c2 →
      GetSTSCredentials sts now1 t1 (some cfg) cache =
        ⟨.ok c1, setCachedCredentials cache (hashToken t1.raw) c1, 1⟩ ∧
      GetSTSCredentials sts now2 t2 (some cfg)
          (setCachedCredentials cache (hashToken t1.raw) c1) =
        ⟨.ok c2,
          setCachedCredentials (setCachedCredentials cache (hashToken t1.raw) c1)
            (hashToken t2.raw) c2, 1⟩ ∧
      lookupCache
          (setCachedCredentials (setCachedCredentials cache (hashToken t1.raw) c1)
            (hashToken t2.raw) c2) (hashToken t1.raw) =
        some { creds := c1, expiresAt := c1.expiration } ∧
      lookupCache
          (setCachedCredentials (setCachedCredentials cache (hashToken t1.raw) c1)
            (hashToken t2.raw) c2) (hashToken t2.raw) =
        some { creds := c2, expiresAt := c2.expiration }) := by
  refine ⟨?_, ?_, ?_⟩
  · intro sts now1 now2 t cfg cache claims creds hmiss hfresh
    refine ⟨getSTS_of_missSuccess sts now1 t cfg cache claims creds hmiss, ?_⟩
    have hraw := hmiss.1
    have hhit := getCached_set_self now2 cache (hashToken t.raw) creds hfresh
    simp [GetSTSCredentials, hraw, hhit]
  · intro s1 s2 hne
    simpa [hashToken] using hne
  · intro sts now1 now2 t1 t2 cfg cache claims1 claims2 c1 c2 hne hm1 hm2
    have hhash : hashToken t1.raw ≠ hashToken t2.raw := by
      simpa [hashToken] using hne
    refine ⟨getSTS_of_missSuccess sts now1 t1 cfg cache claims1 c1 hm1, ?_, ?_, ?_⟩
    · have hm2b : MissSuccess sts now2 t2 cfg
          (setCachedCredentials cache (hashToken t1.raw) c1) claims2 c2 := by
        obtain ⟨hraw, hcache, hparse, hrole, hallow, hsts⟩ := hm2
        exact ⟨hraw,
          (getCached_set_ne now2 cache (hashToken t1.raw) (hashToken t2.raw)
            c1 hhash).trans hcache, hparse, hrole, hallow, hsts⟩
      exact getSTS_of_missSuccess sts now2 t2 cfg
        (setCachedCredentials cache (hashToken t1.raw) c1) claims2 c2 hm2b
    · rw [lookupCache_set_ne _ _ _ _ hhash.symm, lookupCache_set_self]
    · rw [lookupCache_set_self]

/-- Witness for C6 at concrete inputs: a federation oracle answering
per-token credentials, two distinct tokens, and a shared empty cache. -/
theorem sts_cache_c6_witness :
    GetSTSCredentials (fun _ _ raw _ => some ⟨"AK-" ++ raw, "SK", "ST", 100000⟩)
        0 ⟨"tokA", some {}⟩ (some ({ stsRoleARN := "R" } : OAuthConfig)) [] =
      ⟨.ok ⟨"AK-tokA", "SK", "ST", 100000⟩,
        setCachedCredentials [] (hashToken "tokA") ⟨"AK-tokA", "SK", "ST", 100000⟩,
        1⟩ ∧
    GetSTSCredentials (fun _ _ raw _ => some ⟨"AK-" ++ raw, "SK", "ST", 100000⟩)
        7 ⟨"tokA", some {}⟩ (some ({ stsRoleARN := "R" } : OAuthConfig))
        (setCachedCredentials [] (hashToken "tokA")
          ⟨"AK-tokA", "SK", "ST", 100000⟩) =
      ⟨.ok ⟨"AK-tokA", "SK", "ST", 100000⟩,
        setCachedCredentials [] (hashToken "tokA") ⟨"AK-tokA", "SK", "ST", 100000⟩,
        0⟩ ∧
    hashToken "tokA" ≠ hashToken "tokB" ∧
    GetSTSCredentials (fun _ _ raw _ => some ⟨"AK-" ++ raw, "SK", "ST", 100000⟩)
        7 ⟨"tokB", some {}⟩ (some ({ stsRoleARN := "R" } : OAuthConfig))
        (setCachedCredentials [] (hashToken "tokA")
          ⟨"AK-tokA", "SK", "ST", 100000⟩) =
      ⟨.ok ⟨"AK-tokB", "SK", "ST", 100000⟩,
        setCachedCredentials
          (setCachedCredentials [] (hashToken "tokA")
            ⟨"AK-tokA", "SK", "ST", 100000⟩)
          (hashToken "tokB") ⟨"AK-tokB", "SK", "ST", 100000⟩, 1⟩ :=
  have hm1 : MissSuccess
      (fun _ _ raw _ => some ⟨"AK-" ++ raw, "SK", "ST", 100000⟩) 0
      ⟨"tokA", some {}⟩ { stsRoleARN := "R" } [] {}
      ⟨"AK-tokA", "SK", "ST", 100000⟩ := by
    unfold MissSuccess
    decide
  have hm2 : MissSuccess
      (fun _ _ raw _ => some ⟨"AK-" ++ raw, "SK", "ST", 100000⟩) 7
      ⟨"tokB", some {}⟩ { stsRoleARN := "R" } [] {}
      ⟨"AK-tokB", "SK", "ST", 100000⟩ := by
    unfold MissSuccess
    decide
  have hpair := sts_cache_c6.1
    (fun _ _ raw _ => some ⟨"AK-" ++ raw, "SK", "ST", 100000⟩) 0 7
    ⟨"tokA", some {}⟩ { stsRoleARN := "R" } [] {}
    ⟨"AK-tokA", "SK", "ST", 100000⟩ hm1 (by decide)
  have htriple := sts_cache_c6.2.2
    (fun _ _ raw _ => some ⟨"AK-" ++ raw, "SK", "ST", 100000⟩) 0 7
    ⟨"tokA", some {}⟩ ⟨"tokB", some {}⟩ { stsRoleARN := "R" } [] {} {}
    ⟨"AK-tokA", "SK", "ST", 100000⟩ ⟨"AK-tokB", "SK", "ST", 100000⟩
    (by decide) hm1 hm2
  ⟨hpair.1, hpair.2, sts_cache_c6.2.1 "tokA" "tokB" (by decide), htriple.2.1⟩

/-- On any failing callback (non-empty code, non-empty state) the handler
answers the terminal JSON error once the retry count reaches the limit, and
otherwise a redirect to a regenerated authorization URL with the
incremented count appended. -/
theorem callbackHandler_failure (key : Nat) (now : Int)
    (ev : String → Except String (Claims × String))
    (frontEndURL : String) (gen : String → String)
    (code : String) (blob : GCMBlob) (ru p msg : String)
    (hcode : code ≠ "")
    (hfail : HandleCallback key now ev code (some blob) = .error msg) :
    CallbackHandler key now ev frontEndURL gen ⟨code, some blob, ru, p⟩ =
      (if hasExceededRetryLimit (getRetryAttempts p) then
        CallbackResponse.jsonError 400 "Authentication failed: too many retry attempts"
      else
        CallbackResponse.redirectTo
          (gen (if ru = "" then frontEndURL ++ "/dashboard" else ru) ++
            ("&" ++ RetryQueryParam ++ "=" ++ toString (getRetryAttempts p + 1)))) := by
  simp [CallbackHandler, hcode, hfail]

/-- The `oauth_retry` values along the failing trace. -/
theorem retryParamAfter_vals :
    retryParamAfter 0 = "" ∧ retryParamAfter 1 = "1" ∧
    retryParamAfter 2 = "2" ∧ retryParamAfter 3 = "3" := by
  decide

/-- Claim C7: along a run of consecutive recoverable callback failures the
handler produces retry authorization URLs carrying the incremented attempt
counts 1, 2, 3, and once the configured maximum of 3 attempts has been
spent it answers the terminal failure response instead of another retry
URL. -/
theorem callback_bounded_retry_c7 (key : Nat) (now : Int)
    (ev : String → Except String (Claims × String))
    (frontEndURL : String) (gen : String → String)
    (code : String) (blob : GCMBlob) (ru msg : String)
    (hcode : code ≠ "")
    (hfail : HandleCallback key now ev code (some blob) = .error msg) :
    (CallbackHandler key now ev frontEndURL gen
        ⟨code, some blob, ru, retryParamAfter 0⟩ =
      .redirectTo (gen (if ru = "" then frontEndURL ++ "/dashboard" else ru) ++
        "&oauth_retry=1")) ∧
    (CallbackHandler key now ev frontEndURL gen
        ⟨code, some blob, ru, retryParamAfter 1⟩ =
      .redirectTo (gen (if ru = "" then frontEndURL ++ "/dashboard" else ru) ++
        "&oauth_retry=2")) ∧
    (CallbackHandler key now ev frontEndURL gen
        ⟨code, some blob, ru, retryParamAfter 2⟩ =
      .redirectTo (gen (if ru = "" then frontEndURL ++ "/dashboard" else ru) ++
        "&oauth_retry=3")) ∧
    (CallbackHandler key now ev frontEndURL gen
        ⟨code, some blob, ru, retryParamAfter 3⟩ =
      .jsonError 400 "Authentication failed: too many retry attempts") := by
  refine ⟨?_, ?_, ?_, ?_⟩ <;>
    rw [callbackHandler_failure key now ev frontEndURL gen code blob ru _ msg
      hcode hfail] <;> rfl

/-- Witness for C7: a concrete failing callback (tampered state token). -/
theorem callback_bounded_retry_c7_witness :
    (CallbackHandler 0 0 (fun _ => .error "boom") "https://fe" (fun s => s)
        ⟨"c", some (flipBit (GenerateEncryptedState 0 0 0 "n" "https://app") 3),
          "", retryParamAfter 0⟩ =
      .redirectTo ("https://fe/dashboard" ++ "&oauth_retry=1")) ∧
    (CallbackHandler 0 0 (fun _ => .error "boom") "https://fe" (fun s => s)
        ⟨"c", some (flipBit (GenerateEncryptedState 0 0 0 "n" "https://app") 3),
          "", retryParamAfter 3⟩ =
      .jsonError 400 "Authentication failed: too many retry attempts") :=
  have h := callback_bounded_retry_c7 0 0 (fun _ => .error "boom") "https://fe"
    (fun s => s) "c" (flipBit (GenerateEncryptedState 0 0 0 "n" "https://app") 3)
    "" "invalid or expired state parameter" (by decide) rfl
  ⟨h.1, h.2.2.2⟩

/-- Claim C10: an absent or unparseable `oauth_retry` query value counts as
attempt 0, so a failing callback whose retry parameter is malformed is
always answered with a fresh retry URL carrying `oauth_retry=1` and never
with the terminal attempt-cap failure. -/
theorem malformed_retry_c10 :
    getRetryAttempts "" = 0 ∧
    (∀ s : String, goAtoi s = none → getRetryAttempts s = 0) ∧
    (∀ (key : Nat) (now : Int)
       (ev : String → Except String (Claims × String))
       (frontEndURL : String) (gen : String → String)
       (code : String) (blob : GCMBlob) (ru p msg : String),
      code ≠ "" →
      HandleCallback key now ev code (some blob) = .error msg →
      goAtoi p = none →
      CallbackHandler key now ev frontEndURL gen ⟨code, some blob, ru, p⟩ =
        .redirectTo (gen (if ru = "" then frontEndURL ++ "/dashboard" else ru) ++
          "&oauth_retry=1")) := by
  refine ⟨rfl, ?_, ?_⟩
  · intro s hs
    by_cases hempty : s = "" <;> simp [getRetryAttempts, hempty, hs]
  · intro key now ev frontEndURL gen code blob ru p msg hcode hfail hatoi
    have hzero : getRetryAttempts p = 0 := by
      by_cases hempty : p = "" <;> simp [getRetryAttempts, hempty, hatoi]
    rw [callbackHandler_failure key now ev frontEndURL gen code blob ru p msg
      hcode hfail, hzero]
    rfl

/-- Witness for C10 with the malformed retry value `"abc"`. -/
theorem malformed_retry_c10_witness :
    getRetryAttempts "abc" = 0 ∧
    CallbackHandler 0 0 (fun _ => .error "boom") "https://fe" (fun s => s)
        ⟨"c", some (flipBit (GenerateEncryptedState 0 0 0 "n" "https://app") 0),
          "", "abc"⟩ =
      .redirectTo ("https://fe/dashboard" ++ "&oauth_retry=1") :=
  ⟨malformed_retry_c10.2.1 "abc" (by decide),
   malformed_retry_c10.2.2 0 0 (fun _ => .error "boom") "https://fe"
     (fun s => s) "c" (flipBit (GenerateEncryptedState 0 0 0 "n" "https://app") 0)
     "" "abc" "invalid or expired state parameter" (by decide) rfl (by decide)⟩

/-- Claim C8 counterexample: a login requested `redirect_url =
"https://app/settings"`, the provider calls back with only `code` and
`state` (the original redirect travels solely inside the encrypted state),
the code exchange fails, and the regenerated retry URL is seeded with the
default dashboard destination, not with the original requested redirect —
even though the state token validated and still carried it.  `genAuthURL`
is instantiated with the identity so the seed is the location itself. -/
theorem retry_redirect_seed_c8_counterexample :
    CallbackHandler 0 1 (fun _ => .error "failed to exchange code for token")
        "https://front" (fun s => s)
        (providerCallbackRequest "authcode"
          (GenerateEncryptedState 0 0 0 "nonce" "https://app/settings")) =
      .redirectTo ("https://front/dashboard" ++ "&oauth_retry=1") ∧
    "https://front/dashboard" ≠ "https://app/settings" := by
  exact ⟨rfl, by decide⟩

/-- Claim C8 amended: on a recoverable callback failure the retry
authorization URL is seeded with the callback request's own `redirect_url`
query value when non-empty, and with the default `frontEndURL ++
"/dashboard"` otherwise; the original requested redirect embedded in the
state token is not recovered. -/
theorem retry_redirect_seed_c8_amended (key : Nat) (now : Int)
    (ev : String → Except String (Claims × String))
    (frontEndURL : String) (gen : String → String)
    (code : String) (blob : GCMBlob) (ru p msg : String)
    (hcode : code ≠ "")
    (hfail : HandleCallback key now ev code (some blob) = .error msg)
    (hlimit : hasExceededRetryLimit (getRetryAttempts p) = false) :
    CallbackHandler key now ev frontEndURL gen ⟨code, some blob, ru, p⟩ =
      .redirectTo (gen (if ru = "" then frontEndURL ++ "/dashboard" else ru) ++
        ("&" ++ RetryQueryParam ++ "=" ++ toString (getRetryAttempts p + 1))) := by
  rw [callbackHandler_failure key now ev frontEndURL gen code blob ru p msg
    hcode hfail, hlimit]
  rfl

/-- Witness for the amended C8, with a non-empty `redirect_url` on the
callback request itself. -/
theorem retry_redirect_seed_c8_amended_witness :
    CallbackHandler 0 1 (fun _ => .error "failed to exchange code for token")
        "https://front" (fun s => s)
        ⟨"authcode",
          some (GenerateEncryptedState 0 0 0 "nonce" "https://app/settings"),
          "https://elsewhere", ""⟩ =
      .redirectTo ("https://elsewhere" ++
        ("&" ++ RetryQueryParam ++ "=" ++ toString ((0 : Int) + 1))) :=
  retry_redirect_seed_c8_amended 0 1
    (fun _ => .error "failed to exchange code for token") "https://front"
    (fun s => s) "authcode"
    (GenerateEncryptedState 0 0 0 "nonce" "https://app/settings")
    "https://elsewhere" "" "failed to exchange code for token"
    (by decide) rfl (by decide)

/-- Claim C9 counterexample: a verified token whose claims carry the
explicit role claim `custom:userRole = "admin"`, normalized with no
injected default-role function, produces a principal whose role is the
static `"user"`, not the token's role claim. -/
theorem role_resolution_c9_counterexample :
    (validateOIDCTokenNormalize { userRole := "admin" } {}).role = "user" ∧
    "user" ≠ "admin" := by
  exact ⟨rfl, by decide⟩

/-- Claim C9 amended: for principals produced by ID-token verification the
role is always the injected default-role function applied to the raw
claims when one is configured and the static `"user"` otherwise — the
token's explicit role claims are ignored; explicit role attributes are
honored only on the separate directory-record path `cognitoUserToClaims`,
where `custom:role` takes precedence, then `custom:userRole`, then the
injected function, then `"user"`. -/
theorem role_resolution_c9_amended :
    (∀ (oc : OIDCClaims) (cfg : OAuthConfig),
      (validateOIDCTokenNormalize oc cfg).role =
        (match cfg.calculateDefaultRole with
         | some f => f oc
         | none => "user")) ∧
    (∀ (u : CognitoUserType) (cfg : OAuthConfig) (c : Claims),
      cognitoUserToClaims u cfg = .ok c →
      (u.attributes.foldl applyCognitoAttr { provider := "token" }).role ≠ "" →
      c.role = (u.attributes.foldl applyCognitoAttr { provider := "token" }).role) ∧
    (∀ (u : CognitoUserType) (cfg : OAuthConfig) (c : Claims),
      cognitoUserToClaims u cfg = .ok c →
      (u.attributes.foldl applyCognitoAttr { provider := "token" }).role = "" →
      (u.attributes.foldl applyCognitoAttr { provider := "token" }).userRole ≠ "" →
      c.role = (u.attributes.foldl applyCognitoAttr { provider := "token" }).userRole) ∧
    (∀ (u : CognitoUserType) (cfg : OAuthConfig) (c : Claims),
      cognitoUserToClaims u cfg = .ok c →
      (u.attributes.foldl applyCognitoAttr { provider := "token" }).role = "" →
      (u.attributes.foldl applyCognitoAttr { provider := "token" }).userRole = "" →
      cfg.calculateDefaultRole = none →
      c.role = "user") := by
  refine ⟨?_, ?_, ?_, ?_⟩
  · intro oc cfg
    cases h : cfg.calculateDefaultRole <;>
      simp [validateOIDCTokenNormalize, h]
  · intro u cfg c hok hrole
    unfold cognitoUserToClaims at hok
    cases hu : u.username with
    | some uu =>
      rw [hu] at hok
      simp at hok
      split_ifs at hok
      all_goals try simp_all
      all_goals (subst hok; simp_all)
    | none =>
      rw [hu] at hok
      simp at hok
      split_ifs at hok
      all_goals try simp_all
      all_goals (subst hok; simp_all)
  · intro u cfg c hok hrole huser
    unfold cognitoUserToClaims at hok
    cases hu : u.username with
    | some uu =>
      rw [hu] at hok
      simp at hok
      split_ifs at hok
      all_goals try simp_all
      all_goals (subst hok; simp_all)
    | none =>
      rw [hu] at hok
      simp at hok
      split_ifs at hok
      all_goals try simp_all
      all_goals (subst hok; simp_all)
  · intro u cfg c hok hrole huser hnone
    unfold cognitoUserToClaims at hok
    rw [hnone] at hok
    cases hu : u.username with
    | some uu =>
      rw [hu] at hok
      simp at hok
      split_ifs at hok
      all_goals try simp_all
      all_goals (subst hok; simp_all)
    | none =>
      rw [hu] at hok
      simp at hok
      split_ifs at hok
      all_goals try simp_all
      all_goals (subst hok; simp_all)

/-- Witness for the amended C9 at concrete inputs: an injected function, a
directory record with an explicit `custom:role`, one with only
`custom:userRole`, and one with neither. -/
theorem role_resolution_c9_amended_witness :
    (validateOIDCTokenNormalize { userRole := "admin" }
      { calculateDefaultRole := some (fun oc => oc.email) }).role = "" ∧
    (∀ c : Claims,
      cognitoUserToClaims
          ⟨some "u", [("email", "e@x"), ("custom:role", "boss")]⟩ {} = .ok c →
      c.role = "boss") ∧
    (∀ c : Claims,
      cognitoUserToClaims
          ⟨some "u", [("email", "e@x"), ("custom:userRole", "aide")]⟩ {} = .ok c →
      c.role = "aide") ∧
    (∀ c : Claims,
      cognitoUserToClaims ⟨some "u", [("email", "e@x")]⟩ {} = .ok c →
      c.role = "user") := by
  refine ⟨?_, ?_, ?_, ?_⟩
  · exact role_resolution_c9_amended.1 { userRole := "admin" }
      { calculateDefaultRole := some (fun oc => oc.email) }
  · intro c hok
    have h := role_resolution_c9_amended.2.1
      ⟨some "u", [("email", "e@x"), ("custom:role", "boss")]⟩ {} c hok (by decide)
    simpa using h
  · intro c hok
    have h := role_resolution_c9_amended.2.2.1
      ⟨some "u", [("email", "e@x"), ("custom:userRole", "aide")]⟩ {} c hok
      (by decide) (by decide)
    simpa using h
  · intro c hok
    exact role_resolution_c9_amended.2.2.2
      ⟨some "u", [("email", "e@x")]⟩ {} c hok (by decide) (by decide) rfl

end UserMgmt
